import Mathlib

/-!
Shallow embedding of the phishing-guard repository: the backend risk-scoring
engine (backend/detector.py, reproduced in src/DOCUMENTATION.md) and the
extension scan coordinator (the v2.0 background service worker in
src/unnamed/part_001), together with proofs about the claims of the
specification.
-/

namespace PhishingGuard

/-- ASCII lower-casing of a string, character by character. Embeds the
Python str.lower() and JavaScript toLowerCase() calls; every domain and
hostname the program handles is ASCII. -/
def strLower (s : String) : String := String.mk (s.data.map Char.toLower)

/-- Contiguous-substring test on character lists; helper for strContains. -/
def charsContain (sub : List Char) : List Char → Bool
  | [] => sub.isEmpty
  | c :: t => sub.isPrefixOf (c :: t) || charsContain sub t

/-- Substring membership: embeds the Python expression sub in s. -/
def strContains (s sub : String) : Bool := charsContain sub.data s.data

/-- Suffix test: embeds Python str.endswith. -/
def strEndsWith (s post : String) : Bool := post.data.isSuffixOf s.data

/-- Splits a character list on a separator character; embeds str.split
semantics for a single-character separator. -/
def splitChar (sep : Char) : List Char → List (List Char)
  | [] => [[]]
  | c :: t =>
    match splitChar sep t with
    | [] => [[]]
    | h :: r => if c = sep then [] :: h :: r else (c :: h) :: r

/-- Number of dot characters in a string; embeds hostname.count in
_check_url_patterns. -/
def countDots (s : String) : Nat := (s.data.filter fun c => c == '.').length

namespace Detector

/-- The PhishingDetector.SUSPICIOUS_KEYWORDS class constant. -/
def SUSPICIOUS_KEYWORDS : List String :=
  ["login", "signin", "verify", "secure", "account", "update",
   "confirm", "password", "credential", "banking", "paypal",
   "apple", "microsoft", "google", "amazon", "netflix"]

/-- The PhishingDetector.SUSPICIOUS_TLDS class constant. -/
def SUSPICIOUS_TLDS : List String :=
  [".tk", ".ml", ".ga", ".cf", ".gq", ".xyz", ".top",
   ".pw", ".click", ".link", ".work", ".date"]

/-- The PhishingDetector.TRUSTED_DOMAINS class constant; the source lists
these twenty entries explicitly and marks the rest of the list as elided
with a comment. -/
def TRUSTED_DOMAINS : List String :=
  ["google.com", "gmail.com", "youtube.com", "facebook.com",
   "instagram.com", "twitter.com", "x.com", "amazon.com",
   "microsoft.com", "apple.com", "paypal.com", "github.com",
   "linkedin.com", "netflix.com", "dropbox.com", "reddit.com",
   "discord.com", "slack.com", "zoom.us", "notion.so"]

/-- Output of urllib.parse.urlparse plus tldextract on a URL string. The two
parsing libraries are external to the repository, so analyze is
parameterized over their output; urlparseApprox below computes the scheme
and netloc for an ordinary scheme://host/path URL. -/
structure ParsedUrl where
  scheme : String
  netloc : String
  registeredDomain : String
deriving DecidableEq, Repr

/-- Splits a URL at the first occurrence of the :// separator, returning
the parts before and after it. -/
def splitSchemeSep : List Char → Option (List Char × List Char)
  | ':' :: '/' :: '/' :: rest => some ([], rest)
  | c :: rest => (splitSchemeSep rest).map fun p => (c :: p.1, p.2)
  | [] => none

/-- Scheme and netloc of a scheme://host/path URL as urlparse returns them:
the scheme lower-cased, the netloc ending at the first slash, question mark
or hash. The registeredDomainArg argument stands for the output of
tldextract on the same URL. -/
def urlparseApprox (url : String) (registeredDomainArg : String) : ParsedUrl :=
  match splitSchemeSep url.data with
  | none => { scheme := "", netloc := "", registeredDomain := registeredDomainArg }
  | some (bef, rest) =>
    { scheme := strLower (String.mk bef),
      netloc := String.mk (rest.takeWhile fun c => c != '/' && c != '?' && c != '#'),
      registeredDomain := registeredDomainArg }

/-- Embeds PhishingDetector._is_trusted. -/
def isTrusted (hostname domain : String) : Bool :=
  TRUSTED_DOMAINS.any fun trusted =>
    hostname == trusted || strEndsWith hostname ("." ++ trusted) || domain == trusted

/-- Embeds the anchored IPv4-literal regular expression of
_check_url_patterns: four dot-separated groups of one to three digits. -/
def isIpv4Literal (hostname : String) : Bool :=
  let parts := splitChar '.' hostname.data
  parts.length == 4 &&
    parts.all fun p =>
      decide (1 ≤ p.length) && decide (p.length ≤ 3) && p.all fun c => c.isDigit

/-- Embeds PhishingDetector._check_url_patterns. The url parameter of the
source function is unused by its body, so it is omitted here; the keyword
loop breaks after its first match, adding ten once. -/
def check_url_patterns (hostname : String) : Int :=
  (if isIpv4Literal hostname then 40 else 0)
    + (if countDots hostname > 4 then 15 else 0)
    + (if SUSPICIOUS_KEYWORDS.any (fun k => strContains hostname k) then 10 else 0)

/-- Embeds PhishingDetector._check_tld. -/
def check_tld (hostname : String) : Int :=
  if SUSPICIOUS_TLDS.any (fun tld => strEndsWith hostname tld) then 25 else 0

/-- Embeds PhishingDetector._check_https. -/
def check_https (scheme : String) : Int := if scheme ≠ "https" then 20 else 0

/-- The brands list local to _check_brand_impersonation. -/
def brands : List String :=
  ["google", "facebook", "paypal", "amazon", "microsoft", "apple", "netflix", "bank"]

/-- Embeds PhishingDetector._check_brand_impersonation; the source passes
the empty string as the domain argument of _is_trusted there. -/
def check_brand_impersonation (hostname : String) : Int :=
  if brands.any (fun b => strContains hostname b && !(isTrusted hostname "")) then 30 else 0

/-- Content signals posted with a scan request; a key missing from the
content object reads as false. -/
structure ContentSignals where
  has_password_field : Bool := false
  external_form_action : Bool := false
  is_https : Bool := false
deriving DecidableEq, Repr

/-- Embeds PhishingDetector._check_content. -/
def check_content (c : ContentSignals) : Int :=
  (if c.has_password_field && c.external_form_action then 25 else 0)
    + (if !c.is_https then 10 else 0)

/-- The analysis dictionary built by PhishingDetector.analyze; the details
entry is flattened to its only key, trusted_domain. -/
structure AnalysisResult where
  url : String
  is_phishing : Bool := false
  risk_score : Int := 0
  risk_level : String := "safe"
  warnings : List String := []
  trusted_domain : Bool := false
deriving DecidableEq, Repr

/-- Result of analyze together with the list of _check functions the call
invoked, in call order; the trusted-registry branch returns before any. -/
structure AnalysisOutput where
  result : AnalysisResult
  checks_run : List String
deriving DecidableEq, Repr

/-- The output of the trusted-registry early return of analyze: the initial
result dictionary with trusted_domain set and the running score, still
zero, reduced by thirty and floored at zero. -/
def trustedOutput (url : String) : AnalysisOutput :=
  let r : AnalysisResult :=
    { url := url, is_phishing := false, risk_score := max 0 ((0 : Int) - 30),
      risk_level := "safe", warnings := [], trusted_domain := true }
  { result := r, checks_run := [] }

/-- Embeds PhishingDetector.analyze. The content argument is none when the
request carries no content object or an empty, hence falsy, one. -/
def analyze (url : String) (p : ParsedUrl) (content : Option ContentSignals) :
    AnalysisOutput :=
  let hostname := strLower p.netloc
  let domain := p.registeredDomain
  if isTrusted hostname domain then
    trustedOutput url
  else
    let score : Int :=
      check_url_patterns hostname + check_tld hostname + check_https p.scheme
        + check_brand_impersonation hostname
        + (match content with | some c => check_content c | none => 0)
    let level : String :=
      if 70 ≤ score then "dangerous"
      else if 40 ≤ score then "suspicious"
      else if 20 ≤ score then "warning"
      else "safe"
    let r : AnalysisResult :=
      { url := url, is_phishing := decide (40 ≤ score), risk_score := score,
        risk_level := level, warnings := [], trusted_domain := false }
    { result := r,
      checks_run := ["url_patterns", "tld", "https", "brand_impersonation"]
        ++ (match content with | some _ => ["content"] | none => []) }

end Detector

namespace Background

/-- The modules block of the extension settings; the initial values are the
field defaults. -/
structure Modules where
  phishing_protection : Bool := true
  password_guard : Bool := true
  payment_protection : Bool := true
  link_scanner : Bool := true
deriving DecidableEq, Repr

/-- The preferences block of the extension settings. -/
structure Preferences where
  real_time_alerts : Bool := true
  auto_block_dangerous : Bool := true
  notification_sound : Bool := false
deriving DecidableEq, Repr

/-- The extension settings object. -/
structure Settings where
  protection_level : String := "medium"
  modules : Modules := {}
  preferences : Preferences := {}
deriving DecidableEq, Repr

/-- The stats counters of the extension state. -/
structure Stats where
  totalScans : Nat := 0
  threatsBlocked : Nat := 0
deriving DecidableEq, Repr

/-- A scan-result object as the background worker builds it. The source
builds plain JavaScript objects whose field sets differ per branch, so the
fields absent from a branch are optional here and left at their defaults;
timestamps are abstracted to a natural number supplied by the caller. -/
structure ScanResult where
  url : String
  domain : Option String := none
  is_phishing : Bool := false
  risk_score : Option Int := none
  risk_level : String := "unknown"
  warnings : List String := []
  whitelisted : Bool := false
  blacklisted : Bool := false
  tabId : Option Nat := none
  timestamp : Option Nat := none
  contentScanned : Bool := false
  error : Option String := none
  trusted_domain : Bool := false
deriving DecidableEq, Repr

/-- The extension state object; the field defaults are its initial values
in the source. The currentTabStatus map is an association list keyed by
tab id, mirroring a JavaScript object with numeric keys. -/
structure ExtState where
  isEnabled : Bool := true
  scanHistory : List ScanResult := []
  currentTabStatus : List (Nat × ScanResult) := []
  settings : Settings := {}
  whitelist : List String := []
  blacklist : List String := []
  stats : Stats := {}
  apiKey : Option String := none
deriving DecidableEq, Repr

/-- Reads an entry of the currentTabStatus map. -/
def mapGet (m : List (Nat × ScanResult)) (k : Nat) : Option ScanResult :=
  (m.find? fun e => e.1 == k).map fun e => e.2

/-- Writes an entry of the currentTabStatus map, replacing an existing
binding of the same key. -/
def mapSet (m : List (Nat × ScanResult)) (k : Nat) (v : ScanResult) :
    List (Nat × ScanResult) :=
  if m.any (fun e => e.1 == k) then
    m.map fun e => if e.1 == k then (k, v) else e
  else
    m ++ [(k, v)]

/-- Side-effect requests the background worker emits towards its external
collaborators: per-tab badge updates, browser notifications, messages to
the page content script, persistence writes, fetch calls to the backend
scan endpoint, and fire-and-forget list synchronization. -/
inductive Effect
  | badgeTab (tabId : Nat) (status : String)
  | browserNote (tabId : Nat) (kind : String)
  | pageMessage (tabId : Nat) (action : String)
  | persistState
  | backendScan (url : String) (content : Option Detector.ContentSignals)
  | backendListSync (list : String) (domain : String)
deriving DecidableEq, Repr

/-- True exactly for the fetch of the backend scan endpoint, the Risk
Scoring Engine invocation. -/
def Effect.isEngineCall : Effect → Bool
  | Effect.backendScan _ _ => true
  | _ => false

/-- True for the user-facing alert effects: a browser notification or a
showWarning message injected into the page. -/
def Effect.isAlert : Effect → Bool
  | Effect.browserNote _ _ => true
  | Effect.pageMessage _ action => action != "scanResult"
  | _ => false

/-- Embeds showPhishingWarning: no effect when real-time alerts are off,
otherwise a notification plus a danger warning injected into the page. -/
def showPhishingWarning (s : ExtState) (tabId : Nat) : List Effect :=
  if !s.settings.preferences.real_time_alerts then []
  else [Effect.browserNote tabId "phishing", Effect.pageMessage tabId "showWarning-danger"]

/-- Embeds showSuspiciousWarning. -/
def showSuspiciousWarning (s : ExtState) (tabId : Nat) : List Effect :=
  if !s.settings.preferences.real_time_alerts then []
  else [Effect.browserNote tabId "suspicious", Effect.pageMessage tabId "showWarning-warning"]

/-- Embeds getDomain: the lower-cased hostname of the URL, or the empty
string when the URL does not parse. The hostname is the part after the
first :// separator up to the first slash, question mark or hash, with any
user-info part before an at sign and any port after a colon removed; a
string without the separator is treated as unparseable. -/
def getDomain (url : String) : String :=
  match Detector.splitSchemeSep url.data with
  | none => ""
  | some (_, rest) =>
    let netloc := rest.takeWhile fun c => c != '/' && c != '?' && c != '#'
    let hostPort := (splitChar '@' netloc).getLastD []
    let host := hostPort.takeWhile fun c => c != ':'
    String.mk (host.map Char.toLower)

/-- Response of the backend scan endpoint as the worker observes it: the
parsed analysis object on a 2xx response, or a thrown error message on a
network failure, a non-2xx status or a parse failure. -/
inductive BackendResponse
  | ok (analysis : Detector.AnalysisResult)
  | err (message : String)
deriving DecidableEq, Repr

/-- Value returned to the caller of scanUrl or scanWithContent: an explicit
skip marker, a scan-result object, a bare analysis object as returned by
scanWithContent, or the bare error object of a failed content scan. -/
inductive ScanOutcome
  | skipped (reason : Option String)
  | result (r : ScanResult)
  | analysisOnly (a : Detector.AnalysisResult)
  | failure (message : String)
deriving DecidableEq, Repr

/-- Spreads an analysis object over a scan-result base, as the source
object-spread syntax does: the analysis fields overwrite those of the base
and all other base fields survive. -/
def spreadAnalysis (a : Detector.AnalysisResult) (base : ScanResult) : ScanResult :=
  { base with url := a.url, is_phishing := a.is_phishing, risk_score := some a.risk_score,
              risk_level := a.risk_level, warnings := a.warnings,
              trusted_domain := a.trusted_domain }

/-- A bare analysis object viewed as the ScanResult record scanWithContent
returns to its caller. -/
def analysisAsResult (a : Detector.AnalysisResult) : ScanResult :=
  { url := a.url, is_phishing := a.is_phishing, risk_score := some a.risk_score,
    risk_level := a.risk_level, warnings := a.warnings, trusted_domain := a.trusted_domain }

/-- The result object synthesized by the whitelist short-circuit of
scanUrl. -/
def whitelistedResult (url domain : String) : ScanResult :=
  { url := url, domain := some domain, is_phishing := false, risk_score := some 0,
    risk_level := "safe", warnings := [], whitelisted := true }

/-- The result object synthesized by the blacklist short-circuit of
scanUrl. -/
def blacklistedResult (url domain : String) : ScanResult :=
  { url := url, domain := some domain, is_phishing := true, risk_score := some 100,
    risk_level := "dangerous", warnings := ["Domain is in your blacklist"],
    blacklisted := true }

/-- The fallback object returned by the catch block of scanUrl. -/
def errorResult (url msg : String) : ScanResult :=
  { url := url, error := some msg, risk_level := "unknown", is_phishing := false }

/-- Embeds the try block of scanUrl after the short-circuits: the scanning
badge, the fetch, and either the error fallback of the catch block or the
stats update, state write, history append, persistence and notification
cascade of the success path. -/
def scanFetch (s : ExtState) (url : String) (tabId : Nat)
    (backend : BackendResponse) (now : Nat) : ScanOutcome × ExtState × List Effect :=
  let pre := [Effect.badgeTab tabId "scanning", Effect.backendScan url none]
  match backend with
  | BackendResponse.err msg =>
    (ScanOutcome.result (errorResult url msg), s, pre ++ [Effect.badgeTab tabId "error"])
  | BackendResponse.ok a =>
    let stats' : Stats :=
      { totalScans := s.stats.totalScans + 1,
        threatsBlocked := s.stats.threatsBlocked + (if a.is_phishing then 1 else 0) }
    let scanResult := spreadAnalysis a { url := url, tabId := some tabId, timestamp := some now }
    let s' : ExtState :=
      { s with stats := stats',
               currentTabStatus := mapSet s.currentTabStatus tabId scanResult,
               scanHistory := s.scanHistory ++ [scanResult] }
    let warnEff : List Effect :=
      if a.risk_level == "dangerous" then
        (if s.settings.preferences.auto_block_dangerous then showPhishingWarning s tabId else [])
      else if a.risk_level == "suspicious" then showSuspiciousWarning s tabId
      else []
    (ScanOutcome.result scanResult, s',
      pre ++ [Effect.persistState, Effect.badgeTab tabId a.risk_level]
          ++ warnEff ++ [Effect.pageMessage tabId "scanResult"])

/-- Embeds scanUrl of the v2.0 background worker: module switch, whitelist
short-circuit, blacklist short-circuit, per-tab cache, then the backend
fetch. The backend response and the current time are passed as arguments in
place of the network boundary and the clock. -/
def scanUrl (s : ExtState) (url : String) (tabId : Nat) (forceRescan : Bool)
    (backend : BackendResponse) (now : Nat) : ScanOutcome × ExtState × List Effect :=
  if !s.settings.modules.phishing_protection then
    (ScanOutcome.skipped (some "Module disabled"), s, [])
  else
    let domain := getDomain url
    if s.whitelist.contains domain then
      let r := whitelistedResult url domain
      (ScanOutcome.result r,
        { s with currentTabStatus := mapSet s.currentTabStatus tabId r },
        [Effect.badgeTab tabId "safe"])
    else if s.blacklist.contains domain then
      let r := blacklistedResult url domain
      (ScanOutcome.result r,
        { s with currentTabStatus := mapSet s.currentTabStatus tabId r },
        [Effect.badgeTab tabId "dangerous"] ++ showPhishingWarning s tabId)
    else
      match forceRescan, mapGet s.currentTabStatus tabId with
      | false, some cached =>
        if cached.url == url then (ScanOutcome.result cached, s, [])
        else scanFetch s url tabId backend now
      | _, _ => scanFetch s url tabId backend now

/-- Embeds scanWithContent: module switch, fetch with content, then merge of
the analysis into the cached tab entry when one exists, badge update, and a
threatsBlocked increment, persistence and danger warning only when the
analysis is flagged as phishing. It neither checks the override lists nor
touches totalScans nor appends to the history. -/
def scanWithContent (s : ExtState) (url : String) (tabId : Nat)
    (content : Detector.ContentSignals) (backend : BackendResponse) :
    ScanOutcome × ExtState × List Effect :=
  if !s.settings.modules.phishing_protection then
    (ScanOutcome.skipped none, s, [])
  else
    let pre := [Effect.backendScan url (some content)]
    match backend with
    | BackendResponse.err msg => (ScanOutcome.failure msg, s, pre)
    | BackendResponse.ok a =>
      let tabs' :=
        match mapGet s.currentTabStatus tabId with
        | some prev =>
          mapSet s.currentTabStatus tabId { spreadAnalysis a prev with contentScanned := true }
        | none => s.currentTabStatus
      let s₁ : ExtState := { s with currentTabStatus := tabs' }
      if a.is_phishing then
        let s₂ : ExtState :=
          { s₁ with stats := { s₁.stats with threatsBlocked := s₁.stats.threatsBlocked + 1 } }
        let warnEff :=
          if a.risk_level == "dangerous" then showPhishingWarning s tabId else []
        (ScanOutcome.analysisOnly a, s₂,
          pre ++ [Effect.badgeTab tabId a.risk_level, Effect.persistState] ++ warnEff)
      else
        (ScanOutcome.analysisOnly a, s₁, pre ++ [Effect.badgeTab tabId a.risk_level])

/-- Embeds addToWhitelist: lower-case the domain, drop it from the
blacklist, insert it into the whitelist if absent, persist, and sync to the
backend when an api key is set. -/
def addToWhitelist (s : ExtState) (domain : String) : ExtState × List Effect :=
  let d := strLower domain
  let s' : ExtState :=
    { s with blacklist := s.blacklist.filter fun x => x != d,
             whitelist := if s.whitelist.contains d then s.whitelist else s.whitelist ++ [d] }
  (s', [Effect.persistState]
    ++ (if s.apiKey.isSome then [Effect.backendListSync "whitelist" d] else []))

/-- Embeds addToBlacklist, symmetric to addToWhitelist. -/
def addToBlacklist (s : ExtState) (domain : String) : ExtState × List Effect :=
  let d := strLower domain
  let s' : ExtState :=
    { s with whitelist := s.whitelist.filter fun x => x != d,
             blacklist := if s.blacklist.contains d then s.blacklist else s.blacklist ++ [d] }
  (s', [Effect.persistState]
    ++ (if s.apiKey.isSome then [Effect.backendListSync "blacklist" d] else []))

/-- The scan history as saveState persists it: the slice keeping only the
last hundred entries. -/
def savedHistory (s : ExtState) : List ScanResult :=
  s.scanHistory.drop (s.scanHistory.length - 100)

/-- Example state whose blacklist holds one domain. -/
def blState : ExtState := { blacklist := ["evil.example"] }

/-- Example state whose whitelist and blacklist both hold the same domain;
reachable by loading persisted lists, though addToWhitelist and
addToBlacklist keep the two lists disjoint. -/
def bothState : ExtState := { whitelist := ["evil.example"], blacklist := ["evil.example"] }

/-- Example cached result for tab one. -/
def cachedResult : ScanResult :=
  { url := "http://site.example/x", risk_level := "safe", risk_score := some 5,
    tabId := some 1, timestamp := some 3 }

/-- Example state caching cachedResult for tab one. -/
def cachedState : ExtState := { currentTabStatus := [(1, cachedResult)] }

/-- Fixed non-phishing analysis object used by the sequential-scan runs. -/
def aScan : Detector.AnalysisResult := { url := "http://site.example/a" }

/-- Fixed phishing analysis object for witnesses. -/
def aPhish : Detector.AnalysisResult :=
  { url := "http://bad.example/", is_phishing := true, risk_score := 80,
    risk_level := "dangerous" }

/-- One engine scan of a fixed URL on tab one with forceRescan set, the
loop step of runScans; the loop index serves as the clock. -/
def scanOnce (s : ExtState) (i : Nat) : ExtState :=
  (scanUrl s "http://site.example/a" 1 true (BackendResponse.ok aScan) i).2.1

/-- The state after n sequential engine scans of a fixed URL. -/
def runScans (n : Nat) (s : ExtState) : ExtState := (List.range n).foldl scanOnce s

/-- The initial extension state as declared in the source. -/
def initState : ExtState := {}

/-- The scan-result object produced by the clock-i scan of runScans. -/
def scanResultAt (i : Nat) : ScanResult :=
  spreadAnalysis aScan { url := "http://site.example/a", tabId := some 1, timestamp := some i }

end Background

end PhishingGuard

namespace PhishingGuard

namespace Background

/-- Branch lemma: with the scanning module disabled, scanUrl skips and
changes nothing. -/
theorem scanUrl_disabled_case (s : ExtState) (url : String) (tabId : Nat) (force : Bool)
    (backend : BackendResponse) (now : Nat)
    (hmod : s.settings.modules.phishing_protection = false) :
    scanUrl s url tabId force backend now =
      (ScanOutcome.skipped (some "Module disabled"), s, []) := by
  unfold scanUrl
  simp [hmod]

/-- Branch lemma: with the module enabled and a whitelisted domain, scanUrl
takes the whitelist short-circuit. -/
theorem scanUrl_whitelist_case (s : ExtState) (url : String) (tabId : Nat) (force : Bool)
    (backend : BackendResponse) (now : Nat)
    (hmod : s.settings.modules.phishing_protection = true)
    (hwl : s.whitelist.contains (getDomain url) = true) :
    scanUrl s url tabId force backend now =
      (ScanOutcome.result (whitelistedResult url (getDomain url)),
        { s with currentTabStatus :=
            mapSet s.currentTabStatus tabId (whitelistedResult url (getDomain url)) },
        [Effect.badgeTab tabId "safe"]) := by
  have hw : getDomain url ∈ s.whitelist := by simpa using hwl
  unfold scanUrl
  simp [hmod, hw]

/-- Branch lemma: with the module enabled and a blacklisted, non-whitelisted
domain, scanUrl takes the blacklist short-circuit. -/
theorem scanUrl_blacklist_case (s : ExtState) (url : String) (tabId : Nat) (force : Bool)
    (backend : BackendResponse) (now : Nat)
    (hmod : s.settings.modules.phishing_protection = true)
    (hwl : s.whitelist.contains (getDomain url) = false)
    (hbl : s.blacklist.contains (getDomain url) = true) :
    scanUrl s url tabId force backend now =
      (ScanOutcome.result (blacklistedResult url (getDomain url)),
        { s with currentTabStatus :=
            mapSet s.currentTabStatus tabId (blacklistedResult url (getDomain url)) },
        [Effect.badgeTab tabId "dangerous"] ++ showPhishingWarning s tabId) := by
  have hw : getDomain url ∉ s.whitelist := by simpa using hwl
  have hb : getDomain url ∈ s.blacklist := by simpa using hbl
  unfold scanUrl
  simp [hmod, hw, hb]

/-- Branch lemma: with the module enabled, no override hit, no forced
rescan and a cached result for the same URL, scanUrl returns the cached
result and changes nothing. -/
theorem scanUrl_cache_case (s : ExtState) (url : String) (tabId : Nat)
    (backend : BackendResponse) (now : Nat) (cached : ScanResult)
    (hmod : s.settings.modules.phishing_protection = true)
    (hwl : s.whitelist.contains (getDomain url) = false)
    (hbl : s.blacklist.contains (getDomain url) = false)
    (hc : mapGet s.currentTabStatus tabId = some cached)
    (hu : cached.url = url) :
    scanUrl s url tabId false backend now = (ScanOutcome.result cached, s, []) := by
  have hw : getDomain url ∉ s.whitelist := by simpa using hwl
  have hb : getDomain url ∉ s.blacklist := by simpa using hbl
  unfold scanUrl
  simp [hmod, hw, hb, hc, hu]

/-- Branch lemma: with the module enabled, no override hit and the cache
not applicable, scanUrl proceeds to the backend fetch. -/
theorem scanUrl_fetch_case (s : ExtState) (url : String) (tabId : Nat) (force : Bool)
    (backend : BackendResponse) (now : Nat)
    (hmod : s.settings.modules.phishing_protection = true)
    (hwl : s.whitelist.contains (getDomain url) = false)
    (hbl : s.blacklist.contains (getDomain url) = false)
    (hnc : force = true ∨ ∀ r, mapGet s.currentTabStatus tabId = some r → r.url ≠ url) :
    scanUrl s url tabId force backend now = scanFetch s url tabId backend now := by
  have hw : getDomain url ∉ s.whitelist := by simpa using hwl
  have hb : getDomain url ∉ s.blacklist := by simpa using hbl
  unfold scanUrl
  rcases hnc with hf | hmiss
  · subst hf
    simp [hmod, hw, hb]
  · cases hm : mapGet s.currentTabStatus tabId with
    | none => cases force <;> simp [hmod, hw, hb, hm]
    | some r =>
      have hne : r.url ≠ url := hmiss r hm
      cases force <;> simp [hmod, hw, hb, hm, hne]

end Background

/-- C1: for every URL whose host exactly matches, is a subdomain of, or has
registrable domain equal to an entry of the fixed trusted registry, analyze
returns riskLevel safe, isPhishing false and riskScore zero, the running
score reduced by thirty and floored at zero, regardless of any content
signals supplied, and no scoring check runs after the trusted-registry
short-circuit. -/
theorem spec_C1_trusted_short_circuit (url : String) (p : Detector.ParsedUrl)
    (content : Option Detector.ContentSignals) (t : String)
    (ht : t ∈ Detector.TRUSTED_DOMAINS)
    (hmatch : strLower p.netloc = t ∨ strEndsWith (strLower p.netloc) ("." ++ t) = true ∨
      p.registeredDomain = t) :
    (Detector.analyze url p content).result.risk_level = "safe" ∧
    (Detector.analyze url p content).result.is_phishing = false ∧
    (Detector.analyze url p content).result.risk_score = max 0 ((0 : Int) - 30) ∧
    (Detector.analyze url p content).result.risk_score = 0 ∧
    (Detector.analyze url p content).checks_run = [] ∧
    (∀ other : Option Detector.ContentSignals,
      Detector.analyze url p other = Detector.analyze url p content) := by
  have htr : Detector.isTrusted (strLower p.netloc) p.registeredDomain = true := by
    simp only [Detector.isTrusted, List.any_eq_true]
    refine ⟨t, ht, ?_⟩
    rcases hmatch with h | h | h <;> simp [h]
  have hres : ∀ c : Option Detector.ContentSignals,
      Detector.analyze url p c = Detector.trustedOutput url := by
    intro c
    unfold Detector.analyze
    simp [htr]
  refine ⟨?_, ?_, ?_, ?_, ?_, ?_⟩
  · rw [hres content]; rfl
  · rw [hres content]; rfl
  · rw [hres content]; rfl
  · rw [hres content]; norm_num [Detector.trustedOutput]
  · rw [hres content]; rfl
  · intro other; rw [hres other, hres content]

/-- Witness for C1 at the spec scenario: the host accounts.google.com is a
subdomain of the registry entry google.com. -/
theorem spec_C1_witness :
    (Detector.analyze "https://accounts.google.com"
      (Detector.urlparseApprox "https://accounts.google.com" "google.com")
      none).result.risk_level = "safe" ∧
    (Detector.analyze "https://accounts.google.com"
      (Detector.urlparseApprox "https://accounts.google.com" "google.com")
      none).result.is_phishing = false ∧
    (Detector.analyze "https://accounts.google.com"
      (Detector.urlparseApprox "https://accounts.google.com" "google.com")
      none).result.risk_score = max 0 ((0 : Int) - 30) ∧
    (Detector.analyze "https://accounts.google.com"
      (Detector.urlparseApprox "https://accounts.google.com" "google.com")
      none).result.risk_score = 0 ∧
    (Detector.analyze "https://accounts.google.com"
      (Detector.urlparseApprox "https://accounts.google.com" "google.com")
      none).checks_run = [] ∧
    (∀ other : Option Detector.ContentSignals,
      Detector.analyze "https://accounts.google.com"
        (Detector.urlparseApprox "https://accounts.google.com" "google.com") other =
      Detector.analyze "https://accounts.google.com"
        (Detector.urlparseApprox "https://accounts.google.com" "google.com") none) :=
  spec_C1_trusted_short_circuit "https://accounts.google.com"
    (Detector.urlparseApprox "https://accounts.google.com" "google.com") none
    "google.com" (by decide) (Or.inr (Or.inl (by decide)))

/-- C9: analyzing the URL of the spec scenario with no content yields score
thirty-five, the suspicious-TLD check contributing twenty-five and the
suspicious-keyword check ten, the brand-impersonation check zero because
the literal substring paypal is absent from the host, hence riskLevel
warning and isPhishing false. -/
theorem spec_C9_typosquat_scenario :
    (Detector.analyze "https://paypa1-secure.tk/verify"
      (Detector.urlparseApprox "https://paypa1-secure.tk/verify" "paypa1-secure.tk")
      none).result.risk_score = 35 ∧
    (Detector.analyze "https://paypa1-secure.tk/verify"
      (Detector.urlparseApprox "https://paypa1-secure.tk/verify" "paypa1-secure.tk")
      none).result.risk_level = "warning" ∧
    (Detector.analyze "https://paypa1-secure.tk/verify"
      (Detector.urlparseApprox "https://paypa1-secure.tk/verify" "paypa1-secure.tk")
      none).result.is_phishing = false ∧
    Detector.check_tld "paypa1-secure.tk" = 25 ∧
    Detector.check_url_patterns "paypa1-secure.tk" = 10 ∧
    Detector.isIpv4Literal "paypa1-secure.tk" = false ∧
    ¬ countDots "paypa1-secure.tk" > 4 ∧
    (Detector.SUSPICIOUS_KEYWORDS.any fun k => strContains "paypa1-secure.tk" k) = true ∧
    Detector.check_brand_impersonation "paypa1-secure.tk" = 0 ∧
    strContains "paypa1-secure.tk" "paypal" = false ∧
    Detector.check_https "https" = 0 := by
  decide

/-- C6, against the code: analyze never appends to the warnings list, so
every result carries an empty warnings list even when scoring checks
trigger; at the documentation's own example URL the suspicious-TLD check
contributes twenty-five points yet the returned warnings list is empty. -/
theorem spec_C6_warnings_never_populated :
    (∀ (url : String) (p : Detector.ParsedUrl) (content : Option Detector.ContentSignals),
      (Detector.analyze url p content).result.warnings = []) ∧
    Detector.check_tld "suspicious-site.tk" = 25 ∧
    (Detector.analyze "https://suspicious-site.tk/login"
      (Detector.urlparseApprox "https://suspicious-site.tk/login" "suspicious-site.tk")
      none).result.risk_score = 25 ∧
    (Detector.analyze "https://suspicious-site.tk/login"
      (Detector.urlparseApprox "https://suspicious-site.tk/login" "suspicious-site.tk")
      none).result.warnings = [] := by
  refine ⟨?_, by decide, by decide, by decide⟩
  intro url p content
  by_cases h : Detector.isTrusted (strLower p.netloc) p.registeredDomain = true
  · simp [Detector.analyze, Detector.trustedOutput, h]
  · simp [Detector.analyze, h]

namespace Background

/-- C2: with scanning enabled and the domain blacklisted, not whitelisted
and real-time alerts on, scanUrl synthesizes the dangerous blacklist
result, stores it as the tab status, raises the alert, and never invokes
the scoring engine. -/
theorem spec_C2_blacklist_short_circuit (s : ExtState) (url : String) (tabId : Nat)
    (force : Bool) (backend : BackendResponse) (now : Nat)
    (hmod : s.settings.modules.phishing_protection = true)
    (hwl : s.whitelist.contains (getDomain url) = false)
    (hbl : s.blacklist.contains (getDomain url) = true)
    (halert : s.settings.preferences.real_time_alerts = true) :
    scanUrl s url tabId force backend now =
      (ScanOutcome.result (blacklistedResult url (getDomain url)),
        { s with currentTabStatus :=
            mapSet s.currentTabStatus tabId (blacklistedResult url (getDomain url)) },
        [Effect.badgeTab tabId "dangerous", Effect.browserNote tabId "phishing",
          Effect.pageMessage tabId "showWarning-danger"]) ∧
    (blacklistedResult url (getDomain url)).risk_score = some 100 ∧
    (blacklistedResult url (getDomain url)).risk_level = "dangerous" ∧
    (blacklistedResult url (getDomain url)).is_phishing = true ∧
    (blacklistedResult url (getDomain url)).warnings = ["Domain is in your blacklist"] ∧
    ((scanUrl s url tabId force backend now).2.2.all fun e => !e.isEngineCall) = true := by
  have heq := scanUrl_blacklist_case s url tabId force backend now hmod hwl hbl
  have heff : showPhishingWarning s tabId =
      [Effect.browserNote tabId "phishing", Effect.pageMessage tabId "showWarning-danger"] := by
    unfold showPhishingWarning
    simp [halert]
  rw [heq, heff]
  exact ⟨rfl, rfl, rfl, rfl, rfl, rfl⟩

/-- Witness for C2 on a concrete blacklisted domain. -/
theorem spec_C2_witness :
    scanUrl blState "https://evil.example/" 1 false (BackendResponse.err "down") 0 =
      (ScanOutcome.result
          (blacklistedResult "https://evil.example/" (getDomain "https://evil.example/")),
        { blState with
            currentTabStatus :=
              mapSet blState.currentTabStatus 1
                (blacklistedResult "https://evil.example/" (getDomain "https://evil.example/")) },
        [Effect.badgeTab 1 "dangerous", Effect.browserNote 1 "phishing",
          Effect.pageMessage 1 "showWarning-danger"]) ∧
    (blacklistedResult "https://evil.example/"
      (getDomain "https://evil.example/")).risk_score = some 100 ∧
    (blacklistedResult "https://evil.example/"
      (getDomain "https://evil.example/")).risk_level = "dangerous" ∧
    (blacklistedResult "https://evil.example/"
      (getDomain "https://evil.example/")).is_phishing = true ∧
    (blacklistedResult "https://evil.example/"
      (getDomain "https://evil.example/")).warnings = ["Domain is in your blacklist"] ∧
    ((scanUrl blState "https://evil.example/" 1 false (BackendResponse.err "down")
      0).2.2.all fun e => !e.isEngineCall) = true :=
  spec_C2_blacklist_short_circuit blState "https://evil.example/" 1 false
    (BackendResponse.err "down") 0 rfl (by decide) (by decide) rfl

/-- C7: with scanning enabled, the domain in neither override list, no
forced rescan and the cached tab result holding the same URL, scanUrl
returns the cached result unchanged and mutates nothing. -/
theorem spec_C7_cache_dedupe (s : ExtState) (url : String) (tabId : Nat)
    (backend : BackendResponse) (now : Nat) (cached : ScanResult)
    (hmod : s.settings.modules.phishing_protection = true)
    (hwl : s.whitelist.contains (getDomain url) = false)
    (hbl : s.blacklist.contains (getDomain url) = false)
    (hc : mapGet s.currentTabStatus tabId = some cached)
    (hu : cached.url = url) :
    scanUrl s url tabId false backend now = (ScanOutcome.result cached, s, []) ∧
    (scanUrl s url tabId false backend now).2.1.currentTabStatus = s.currentTabStatus ∧
    (scanUrl s url tabId false backend now).2.1.scanHistory = s.scanHistory ∧
    (scanUrl s url tabId false backend now).2.1.stats = s.stats := by
  have heq := scanUrl_cache_case s url tabId backend now cached hmod hwl hbl hc hu
  rw [heq]
  exact ⟨rfl, rfl, rfl, rfl⟩

/-- Witness for C7 on a concrete cached state. -/
theorem spec_C7_witness :
    scanUrl cachedState "http://site.example/x" 1 false (BackendResponse.err "down") 9 =
      (ScanOutcome.result cachedResult, cachedState, []) ∧
    (scanUrl cachedState "http://site.example/x" 1 false (BackendResponse.err "down")
      9).2.1.currentTabStatus = cachedState.currentTabStatus ∧
    (scanUrl cachedState "http://site.example/x" 1 false (BackendResponse.err "down")
      9).2.1.scanHistory = cachedState.scanHistory ∧
    (scanUrl cachedState "http://site.example/x" 1 false (BackendResponse.err "down")
      9).2.1.stats = cachedState.stats :=
  spec_C7_cache_dedupe cachedState "http://site.example/x" 1 (BackendResponse.err "down") 9
    cachedResult rfl (by decide) (by decide) (by decide) rfl

/-- C5: when the backend call fails, scanUrl returns the error fallback
with riskLevel unknown and isPhishing false carrying the failure
description, the stats are untouched, and no alert effect is emitted. -/
theorem spec_C5_backend_failure (s : ExtState) (url : String) (tabId : Nat)
    (force : Bool) (now : Nat) (msg : String)
    (hmod : s.settings.modules.phishing_protection = true)
    (hwl : s.whitelist.contains (getDomain url) = false)
    (hbl : s.blacklist.contains (getDomain url) = false)
    (hnc : force = true ∨ ∀ r, mapGet s.currentTabStatus tabId = some r → r.url ≠ url) :
    scanUrl s url tabId force (BackendResponse.err msg) now =
      (ScanOutcome.result (errorResult url msg), s,
        [Effect.badgeTab tabId "scanning", Effect.backendScan url none,
          Effect.badgeTab tabId "error"]) ∧
    (errorResult url msg).risk_level = "unknown" ∧
    (errorResult url msg).is_phishing = false ∧
    (errorResult url msg).error = some msg ∧
    (scanUrl s url tabId force (BackendResponse.err msg) now).2.1.stats = s.stats ∧
    ((scanUrl s url tabId force (BackendResponse.err msg) now).2.2.all
      fun e => !e.isAlert) = true := by
  have heq := scanUrl_fetch_case s url tabId force (BackendResponse.err msg) now hmod hwl hbl hnc
  rw [heq]
  exact ⟨rfl, rfl, rfl, rfl, rfl, rfl⟩

/-- Witness for C5 on the initial state with a forced rescan. -/
theorem spec_C5_witness :
    scanUrl initState "http://site.example/x" 1 true (BackendResponse.err "API error: 500") 5 =
      (ScanOutcome.result (errorResult "http://site.example/x" "API error: 500"), initState,
        [Effect.badgeTab 1 "scanning", Effect.backendScan "http://site.example/x" none,
          Effect.badgeTab 1 "error"]) ∧
    (errorResult "http://site.example/x" "API error: 500").risk_level = "unknown" ∧
    (errorResult "http://site.example/x" "API error: 500").is_phishing = false ∧
    (errorResult "http://site.example/x" "API error: 500").error = some "API error: 500" ∧
    (scanUrl initState "http://site.example/x" 1 true (BackendResponse.err "API error: 500")
      5).2.1.stats = initState.stats ∧
    ((scanUrl initState "http://site.example/x" 1 true (BackendResponse.err "API error: 500")
      5).2.2.all fun e => !e.isAlert) = true :=
  spec_C5_backend_failure initState "http://site.example/x" 1 true 5 "API error: 500"
    rfl (by decide) (by decide) (Or.inl rfl)

/-- C10: a backend failure leaves the stored state exactly as before the
call, the error result is only returned to the caller, and a previously
cached result for the same URL is still served to a subsequent scan. -/
theorem spec_C10_failure_frame (s : ExtState) (url : String) (tabId : Nat)
    (now now2 : Nat) (msg : String) (backend2 : BackendResponse)
    (hmod : s.settings.modules.phishing_protection = true)
    (hwl : s.whitelist.contains (getDomain url) = false)
    (hbl : s.blacklist.contains (getDomain url) = false) :
    (scanUrl s url tabId true (BackendResponse.err msg) now).2.1 = s ∧
    (scanUrl s url tabId true (BackendResponse.err msg) now).1 =
      ScanOutcome.result (errorResult url msg) ∧
    (∀ prev, mapGet s.currentTabStatus tabId = some prev → prev.url = url →
      scanUrl (scanUrl s url tabId true (BackendResponse.err msg) now).2.1 url tabId false
        backend2 now2 = (ScanOutcome.result prev, s, [])) := by
  have heq := scanUrl_fetch_case s url tabId true (BackendResponse.err msg) now hmod hwl hbl
    (Or.inl rfl)
  refine ⟨?_, ?_, ?_⟩
  · rw [heq]
    rfl
  · rw [heq]
    rfl
  · intro prev hc hu
    have hstate : (scanUrl s url tabId true (BackendResponse.err msg) now).2.1 = s := by
      rw [heq]
      rfl
    rw [hstate]
    exact scanUrl_cache_case s url tabId backend2 now2 prev hmod hwl hbl hc hu

/-- Witness for C10 on a concrete cached state whose rescan fails. -/
theorem spec_C10_witness :
    (scanUrl cachedState "http://site.example/x" 1 true (BackendResponse.err "down") 4).2.1 =
      cachedState ∧
    (scanUrl cachedState "http://site.example/x" 1 true (BackendResponse.err "down") 4).1 =
      ScanOutcome.result (errorResult "http://site.example/x" "down") ∧
    (∀ prev, mapGet cachedState.currentTabStatus 1 = some prev →
      prev.url = "http://site.example/x" →
      scanUrl (scanUrl cachedState "http://site.example/x" 1 true (BackendResponse.err "down")
          4).2.1 "http://site.example/x" 1 false (BackendResponse.err "still down") 6 =
        (ScanOutcome.result prev, cachedState, [])) :=
  spec_C10_failure_frame cachedState "http://site.example/x" 1 4 6 "down"
    (BackendResponse.err "still down") rfl (by decide) (by decide)

/-- Counterexample to C8 as stated: in a state whose whitelist and
blacklist both hold the scanned domain, scanUrl returns the safe whitelist
result, not the dangerous blacklist result. -/
theorem spec_C8_counterexample :
    (scanUrl bothState "https://evil.example/" 7 false (BackendResponse.err "down") 0).1 =
      ScanOutcome.result (whitelistedResult "https://evil.example/" "evil.example") ∧
    (scanUrl bothState "https://evil.example/" 7 false (BackendResponse.err "down") 0).1 ≠
      ScanOutcome.result (blacklistedResult "https://evil.example/" "evil.example") ∧
    bothState.whitelist.contains (getDomain "https://evil.example/") = true ∧
    bothState.blacklist.contains (getDomain "https://evil.example/") = true := by
  decide

/-- C8 as amended: scanUrl evaluates the whitelist check before the
blacklist check, so a domain present in both lists yields the safe
whitelist result and the scoring engine is not invoked. -/
theorem spec_C8_whitelist_first (s : ExtState) (url : String) (tabId : Nat)
    (force : Bool) (backend : BackendResponse) (now : Nat)
    (hmod : s.settings.modules.phishing_protection = true)
    (hwl : s.whitelist.contains (getDomain url) = true)
    (hbl : s.blacklist.contains (getDomain url) = true) :
    scanUrl s url tabId force backend now =
      (ScanOutcome.result (whitelistedResult url (getDomain url)),
        { s with currentTabStatus :=
            mapSet s.currentTabStatus tabId (whitelistedResult url (getDomain url)) },
        [Effect.badgeTab tabId "safe"]) ∧
    (whitelistedResult url (getDomain url)).risk_level = "safe" ∧
    (whitelistedResult url (getDomain url)).risk_score = some 0 ∧
    (whitelistedResult url (getDomain url)).is_phishing = false ∧
    (whitelistedResult url (getDomain url)).whitelisted = true ∧
    ((scanUrl s url tabId force backend now).2.2.all fun e => !e.isEngineCall) = true := by
  have heq := scanUrl_whitelist_case s url tabId force backend now hmod hwl
  rw [heq]
  exact ⟨rfl, rfl, rfl, rfl, rfl, rfl⟩

/-- Witness for the amended C8 on the concrete state holding the domain in
both lists. -/
theorem spec_C8_witness :
    scanUrl bothState "https://evil.example/" 7 false (BackendResponse.err "down") 0 =
      (ScanOutcome.result
          (whitelistedResult "https://evil.example/" (getDomain "https://evil.example/")),
        { bothState with
            currentTabStatus :=
              mapSet bothState.currentTabStatus 7
                (whitelistedResult "https://evil.example/" (getDomain "https://evil.example/")) },
        [Effect.badgeTab 7 "safe"]) ∧
    (whitelistedResult "https://evil.example/"
      (getDomain "https://evil.example/")).risk_level = "safe" ∧
    (whitelistedResult "https://evil.example/"
      (getDomain "https://evil.example/")).risk_score = some 0 ∧
    (whitelistedResult "https://evil.example/"
      (getDomain "https://evil.example/")).is_phishing = false ∧
    (whitelistedResult "https://evil.example/"
      (getDomain "https://evil.example/")).whitelisted = true ∧
    ((scanUrl bothState "https://evil.example/" 7 false (BackendResponse.err "down")
      0).2.2.all fun e => !e.isEngineCall) = true :=
  spec_C8_whitelist_first bothState "https://evil.example/" 7 false
    (BackendResponse.err "down") 0 rfl (by decide) (by decide)

/-- Helper: the stats counters never decrease across scanFetch. -/
theorem scanFetch_stats_le (s : ExtState) (url : String) (tabId : Nat)
    (backend : BackendResponse) (now : Nat) :
    s.stats.totalScans ≤ (scanFetch s url tabId backend now).2.1.stats.totalScans ∧
    s.stats.threatsBlocked ≤ (scanFetch s url tabId backend now).2.1.stats.threatsBlocked := by
  unfold scanFetch
  cases backend with
  | err m => exact ⟨le_refl _, le_refl _⟩
  | ok a => exact ⟨Nat.le_add_right _ _, Nat.le_add_right _ _⟩

/-- Helper: the stats counters never decrease across scanUrl. -/
theorem scanUrl_stats_le (s : ExtState) (url : String) (tabId : Nat) (force : Bool)
    (backend : BackendResponse) (now : Nat) :
    s.stats.totalScans ≤ (scanUrl s url tabId force backend now).2.1.stats.totalScans ∧
    s.stats.threatsBlocked ≤ (scanUrl s url tabId force backend now).2.1.stats.threatsBlocked := by
  cases hmod : s.settings.modules.phishing_protection with
  | false =>
    rw [scanUrl_disabled_case s url tabId force backend now hmod]
    exact ⟨le_refl _, le_refl _⟩
  | true =>
    cases hwl : s.whitelist.contains (getDomain url) with
    | true =>
      rw [scanUrl_whitelist_case s url tabId force backend now hmod hwl]
      exact ⟨le_refl _, le_refl _⟩
    | false =>
      cases hbl : s.blacklist.contains (getDomain url) with
      | true =>
        rw [scanUrl_blacklist_case s url tabId force backend now hmod hwl hbl]
        exact ⟨le_refl _, le_refl _⟩
      | false =>
        cases force with
        | true =>
          rw [scanUrl_fetch_case s url tabId true backend now hmod hwl hbl (Or.inl rfl)]
          exact scanFetch_stats_le s url tabId backend now
        | false =>
          cases hm : mapGet s.currentTabStatus tabId with
          | none =>
            rw [scanUrl_fetch_case s url tabId false backend now hmod hwl hbl
              (Or.inr fun r hr => by rw [hm] at hr; cases hr)]
            exact scanFetch_stats_le s url tabId backend now
          | some cached =>
            by_cases hcu : cached.url = url
            · rw [scanUrl_cache_case s url tabId backend now cached hmod hwl hbl hm hcu]
              exact ⟨le_refl _, le_refl _⟩
            · rw [scanUrl_fetch_case s url tabId false backend now hmod hwl hbl
                (Or.inr fun r hr => by
                  rw [hm] at hr
                  cases hr
                  exact hcu)]
              exact scanFetch_stats_le s url tabId backend now

/-- Helper: the stats counters never decrease across scanWithContent. -/
theorem scanWithContent_stats_le (s : ExtState) (url : String) (tabId : Nat)
    (content : Detector.ContentSignals) (backend : BackendResponse) :
    s.stats.totalScans ≤ (scanWithContent s url tabId content backend).2.1.stats.totalScans ∧
    s.stats.threatsBlocked ≤
      (scanWithContent s url tabId content backend).2.1.stats.threatsBlocked := by
  unfold scanWithContent
  cases hmod : s.settings.modules.phishing_protection with
  | false => exact ⟨le_refl _, le_refl _⟩
  | true =>
    cases backend with
    | err m => exact ⟨le_refl _, le_refl _⟩
    | ok a =>
      cases ha : a.is_phishing with
      | false => simp [ha]
      | true => simp [ha]

/-- Counterexample to C3 as stated: a completed, non-skipped, non-error
content scan leaves totalScans unchanged. -/
theorem spec_C3_counterexample :
    (scanWithContent cachedState "http://site.example/x" 1 {}
      (BackendResponse.ok aScan)).1 = ScanOutcome.analysisOnly aScan ∧
    (scanWithContent cachedState "http://site.example/x" 1 {}
      (BackendResponse.ok aScan)).2.1.stats.totalScans = cachedState.stats.totalScans := by
  decide

/-- C3 as amended: a completed engine scan through scanUrl increments
totalScans by one and threatsBlocked by one exactly when the analysis is
flagged as phishing; a completed scanWithContent call leaves totalScans
unchanged and increments only threatsBlocked, by one exactly when the
analysis is flagged as phishing; and both counters are monotonically
non-decreasing across scanUrl, scanWithContent, addToWhitelist and
addToBlacklist. -/
theorem spec_C3_stats_discipline :
    (∀ (s : ExtState) (url : String) (tabId : Nat) (force : Bool)
        (a : Detector.AnalysisResult) (now : Nat),
      s.settings.modules.phishing_protection = true →
      s.whitelist.contains (getDomain url) = false →
      s.blacklist.contains (getDomain url) = false →
      (force = true ∨ ∀ r, mapGet s.currentTabStatus tabId = some r → r.url ≠ url) →
      (scanUrl s url tabId force (BackendResponse.ok a) now).2.1.stats.totalScans =
          s.stats.totalScans + 1 ∧
      (scanUrl s url tabId force (BackendResponse.ok a) now).2.1.stats.threatsBlocked =
          s.stats.threatsBlocked + (if a.is_phishing then 1 else 0)) ∧
    (∀ (s : ExtState) (url : String) (tabId : Nat) (content : Detector.ContentSignals)
        (a : Detector.AnalysisResult),
      s.settings.modules.phishing_protection = true →
      (scanWithContent s url tabId content (BackendResponse.ok a)).2.1.stats.totalScans =
          s.stats.totalScans ∧
      (scanWithContent s url tabId content (BackendResponse.ok a)).2.1.stats.threatsBlocked =
          s.stats.threatsBlocked + (if a.is_phishing then 1 else 0)) ∧
    (∀ (s : ExtState) (url : String) (tabId : Nat) (force : Bool)
        (backend : BackendResponse) (now : Nat),
      s.stats.totalScans ≤ (scanUrl s url tabId force backend now).2.1.stats.totalScans ∧
      s.stats.threatsBlocked ≤
        (scanUrl s url tabId force backend now).2.1.stats.threatsBlocked) ∧
    (∀ (s : ExtState) (url : String) (tabId : Nat) (content : Detector.ContentSignals)
        (backend : BackendResponse),
      s.stats.totalScans ≤ (scanWithContent s url tabId content backend).2.1.stats.totalScans ∧
      s.stats.threatsBlocked ≤
        (scanWithContent s url tabId content backend).2.1.stats.threatsBlocked) ∧
    (∀ (s : ExtState) (d : String),
      (addToWhitelist s d).1.stats = s.stats ∧ (addToBlacklist s d).1.stats = s.stats) := by
  refine ⟨?_, ?_, ?_, ?_, ?_⟩
  · intro s url tabId force a now hmod hwl hbl hnc
    have heq := scanUrl_fetch_case s url tabId force (BackendResponse.ok a) now hmod hwl hbl hnc
    rw [heq]
    exact ⟨rfl, rfl⟩
  · intro s url tabId content a hmod
    unfold scanWithContent
    cases ha : a.is_phishing <;> simp [hmod, ha]
  · intro s url tabId force backend now
    exact scanUrl_stats_le s url tabId force backend now
  · intro s url tabId content backend
    exact scanWithContent_stats_le s url tabId content backend
  · intro s d
    exact ⟨rfl, rfl⟩

/-- Witness for the amended C3: the first two, hypothesis-bearing parts
applied at concrete inputs with a phishing analysis. -/
theorem spec_C3_witness :
    ((scanUrl initState "http://site.example/a" 1 true (BackendResponse.ok aPhish)
        0).2.1.stats.totalScans = initState.stats.totalScans + 1 ∧
      (scanUrl initState "http://site.example/a" 1 true (BackendResponse.ok aPhish)
        0).2.1.stats.threatsBlocked =
        initState.stats.threatsBlocked + (if aPhish.is_phishing then 1 else 0)) ∧
    ((scanWithContent initState "http://site.example/a" 1 {}
        (BackendResponse.ok aPhish)).2.1.stats.totalScans = initState.stats.totalScans ∧
      (scanWithContent initState "http://site.example/a" 1 {}
        (BackendResponse.ok aPhish)).2.1.stats.threatsBlocked =
        initState.stats.threatsBlocked + (if aPhish.is_phishing then 1 else 0)) :=
  ⟨spec_C3_stats_discipline.1 initState "http://site.example/a" 1 true aPhish 0
      rfl (by decide) (by decide) (Or.inl rfl),
    spec_C3_stats_discipline.2.1 initState "http://site.example/a" 1 {} aPhish rfl⟩

set_option maxRecDepth 80000 in
/-- Counterexample to C4 as stated: after one hundred and one sequential
engine scans the in-memory history holds one hundred and one entries, so
its length is not bounded by one hundred. -/
theorem spec_C4_counterexample :
    (runScans 101 initState).scanHistory.length = 101 ∧
    ¬ (runScans 101 initState).scanHistory.length ≤ 100 := by
  decide

set_option maxRecDepth 80000 in
/-- C4 as amended: the in-memory history is append-only and unbounded,
while the history snapshot that saveState persists keeps only the most
recent hundred entries; after one hundred and one sequential engine scans
the in-memory history has length one hundred and one, the persisted
history has length one hundred, and its first element is the result of the
second scan performed. -/
theorem spec_C4_saved_history_cap :
    (∀ s : ExtState, (savedHistory s).length ≤ 100) ∧
    (runScans 101 initState).scanHistory.length = 101 ∧
    (savedHistory (runScans 101 initState)).length = 100 ∧
    (savedHistory (runScans 101 initState)).head? = some (scanResultAt 1) ∧
    (scanUrl (runScans 1 initState) "http://site.example/a" 1 true
      (BackendResponse.ok aScan) 1).1 = ScanOutcome.result (scanResultAt 1) := by
  refine ⟨?_, by decide, by decide, by decide, by decide⟩
  intro s
  unfold savedHistory
  rw [List.length_drop]
  omega

end Background

end PhishingGuard
